import Mathlib

/-
  Verification development for the localbostrom capability-governance engine.

  Shallow embedding conventions:
  * Rust `HashSet<CapabilityId>` is modelled as `Finset String` (the `CapabilityId`
    newtype wraps a `String`).
  * Rust `HashMap<K, V>` is modelled as an association list `List (K × V)` with a
    `find?`-based lookup; insertion replaces the binding of an existing key.
  * Rust `f64` threshold/fraction fields and the ratio arithmetic over them are
    modelled exactly over `ℚ`; `Rat` division by zero yields `0`, matching the
    behaviour of the source's `NaN > cap` comparison (false) for non-negative caps.
  * Rust `u128`/`u64`/`usize` are modelled as `Nat`; the one addition that can
    overflow (`yes_weight + no_weight` on `u128`) is reduced modulo `2 ^ 128`
    (release-profile wrap-around semantics).
  * Fallible Rust functions returning `Result<T, String>` become
    `Except String T`; methods on `&mut self` return the updated receiver
    alongside the call result.
-/

/-- Generic observer for `Except` results: `true` exactly on `Except.ok`. -/
def resultIsOk {ε α : Type} : Except ε α → Bool
  | Except.ok _ => true
  | Except.error _ => false

namespace CyberGov

/-- `CapabilityId(pub String)` from cybernetic-governance/src/lib.rs. -/
abbrev CapabilityId := String

/-- `CompetitiveDomain` from cybernetic-governance/src/lib.rs. -/
structure CompetitiveDomain where
  id : String
  description : String
  allowed_capabilities : Finset CapabilityId
  min_capability_count : Nat
deriving DecidableEq

/-- `GovernanceProposal` from cybernetic-governance/src/lib.rs. -/
structure GovernanceProposal where
  proposal_id : String
  domain_id : String
  restrict_capabilities : Finset CapabilityId
  protect_capabilities : Finset CapabilityId
  required_supermajority : ℚ
  activation_height : Nat
deriving DecidableEq

/-- `GovernanceVoteOutcome` from cybernetic-governance/src/lib.rs; the `u128`
weights are carried as `Nat`. -/
structure GovernanceVoteOutcome where
  proposal_id : String
  yes_weight : Nat
  no_weight : Nat
  finalized_height : Nat
deriving DecidableEq

/-- `GovernanceConstitution` from cybernetic-governance/src/lib.rs. -/
structure GovernanceConstitution where
  global_min_capability_floor : Nat
  max_restriction_fraction_per_turn : ℚ
  min_supermajority_floor : ℚ
  hard_protect_safety_capabilities : Bool
  globally_nonrestrictable : Finset CapabilityId
deriving DecidableEq

/-- `DomainState` from cybernetic-governance/src/lib.rs. -/
structure DomainState where
  domain : CompetitiveDomain
  disabled_capabilities : Finset CapabilityId
deriving DecidableEq

/-- `CapabilityGovernance` from cybernetic-governance/src/lib.rs; the
`HashMap<String, DomainState>` becomes an association list. -/
structure CapabilityGovernance where
  constitution : GovernanceConstitution
  domains : List (String × DomainState)
deriving DecidableEq

/-- `self.domains.get(&proposal.domain_id)`. -/
def lookupDomain (domains : List (String × DomainState)) (domain_id : String) :
    Option DomainState :=
  (domains.find? (fun e => e.1 == domain_id)).map (fun e => e.2)

/-- `u128` wrap-around for the tally addition. -/
def u128Wrap (n : Nat) : Nat := n % 2 ^ 128

/-- `let total = vote_outcome.yes_weight + vote_outcome.no_weight;` (u128 add). -/
def voteTotal (v : GovernanceVoteOutcome) : Nat :=
  u128Wrap (v.yes_weight + v.no_weight)

/-- `let yes_ratio = (vote_outcome.yes_weight as f64) / (total as f64);`. -/
def yesFraction (v : GovernanceVoteOutcome) : ℚ :=
  (v.yes_weight : ℚ) / (voteTotal v : ℚ)

/-- Step 3 of `evaluate_proposal`: the tentative restricted set.  The source
loop inserts every member of `restrict_capabilities` that is not globally
non-restrictable into a clone of the stored disabled set. -/
def tentativeDisabled (g : CapabilityGovernance) (state : DomainState)
    (proposal : GovernanceProposal) : Finset CapabilityId :=
  state.disabled_capabilities ∪
    (proposal.restrict_capabilities \ g.constitution.globally_nonrestrictable)

/-- Step 5 of `evaluate_proposal`: the hard-protection pass.  Each capability is
kept unless `hard_protect_safety_capabilities` holds and the capability is
globally non-restrictable. -/
def hardProtectFilter (g : CapabilityGovernance) (disabled : Finset CapabilityId) :
    Finset CapabilityId :=
  disabled.filter (fun cap =>
    ¬ (g.constitution.hard_protect_safety_capabilities = true ∧
       cap ∈ g.constitution.globally_nonrestrictable))

/-- `CapabilityGovernance::evaluate_proposal` from cybernetic-governance/src/lib.rs,
lines 103-177.  `disabled_count` is `min |tentative| total`, `enabled_count` is
`total - disabled_count`, exactly as in the source. -/
def evaluate_proposal (g : CapabilityGovernance) (proposal : GovernanceProposal)
    (vote_outcome : GovernanceVoteOutcome) (current_height : Nat) :
    Except String (Option DomainState) :=
  match lookupDomain g.domains proposal.domain_id with
  | none => Except.error "Unknown domain_id"
  | some state =>
    if current_height < proposal.activation_height ∨
       vote_outcome.finalized_height < proposal.activation_height then
      Except.ok none
    else if voteTotal vote_outcome = 0 then
      Except.ok none
    else if yesFraction vote_outcome < proposal.required_supermajority ∨
            yesFraction vote_outcome < g.constitution.min_supermajority_floor then
      Except.ok none
    else if state.domain.allowed_capabilities.card -
              min (tentativeDisabled g state proposal).card
                state.domain.allowed_capabilities.card <
            state.domain.min_capability_count then
      Except.error "Proposal would violate domain.min_capability_count; rejected"
    else if state.domain.allowed_capabilities.card -
              min (tentativeDisabled g state proposal).card
                state.domain.allowed_capabilities.card <
            g.constitution.global_min_capability_floor then
      Except.error "Proposal would violate global_min_capability_floor; rejected"
    else if (((min (tentativeDisabled g state proposal).card
                state.domain.allowed_capabilities.card : ℕ) : ℚ) /
              (state.domain.allowed_capabilities.card : ℚ)) >
            g.constitution.max_restriction_fraction_per_turn then
      Except.error "Proposal over max_restriction_fraction_per_turn; rejected"
    else
      Except.ok (some { state with
        disabled_capabilities := hardProtectFilter g (tentativeDisabled g state proposal) })

/-- `CapabilityGovernance::get_domain_state`. -/
def get_domain_state (g : CapabilityGovernance) (domain_id : String) :
    Option DomainState :=
  lookupDomain g.domains domain_id

/-- Guarded `Nat` subtraction, used to make the one `usize` subtraction of the
evaluator explicit in the panic-free model. -/
def checkedSub (a b : Nat) : Option Nat :=
  if b ≤ a then some (a - b) else none

/-- Panic-explicit variant of `evaluate_proposal`: every partial primitive is
guarded (`none` marks a would-be panic).  The `u128` tally addition wraps by
definition, `f64` division is total, and the only `usize` subtraction
(`total_caps - disabled_count`) is routed through `checkedSub`. -/
def evaluate_proposalChecked (g : CapabilityGovernance) (proposal : GovernanceProposal)
    (vote_outcome : GovernanceVoteOutcome) (current_height : Nat) :
    Option (Except String (Option DomainState)) :=
  match lookupDomain g.domains proposal.domain_id with
  | none => some (Except.error "Unknown domain_id")
  | some state =>
    if current_height < proposal.activation_height ∨
       vote_outcome.finalized_height < proposal.activation_height then
      some (Except.ok none)
    else if voteTotal vote_outcome = 0 then
      some (Except.ok none)
    else if yesFraction vote_outcome < proposal.required_supermajority ∨
            yesFraction vote_outcome < g.constitution.min_supermajority_floor then
      some (Except.ok none)
    else
      match checkedSub state.domain.allowed_capabilities.card
          (min (tentativeDisabled g state proposal).card
            state.domain.allowed_capabilities.card) with
      | none => none
      | some enabled_count =>
        if enabled_count < state.domain.min_capability_count then
          some (Except.error "Proposal would violate domain.min_capability_count; rejected")
        else if enabled_count < g.constitution.global_min_capability_floor then
          some (Except.error "Proposal would violate global_min_capability_floor; rejected")
        else if (((min (tentativeDisabled g state proposal).card
                    state.domain.allowed_capabilities.card : ℕ) : ℚ) /
                  (state.domain.allowed_capabilities.card : ℚ)) >
                g.constitution.max_restriction_fraction_per_turn then
          some (Except.error "Proposal over max_restriction_fraction_per_turn; rejected")
        else
          some (Except.ok (some { state with
            disabled_capabilities := hardProtectFilter g (tentativeDisabled g state proposal) }))

/-- A call to the method `evaluate_proposal` on a `&self` receiver: the engine
is taken by shared reference, so the post-call engine is the pre-call engine. -/
def evaluate_proposalCall (g : CapabilityGovernance) (proposal : GovernanceProposal)
    (vote_outcome : GovernanceVoteOutcome) (current_height : Nat) :
    CapabilityGovernance × Except String (Option DomainState) :=
  (g, evaluate_proposal g proposal vote_outcome current_height)

/-- Thread any number of evaluator calls through the engine. -/
def evalMany (g : CapabilityGovernance) :
    List (GovernanceProposal × GovernanceVoteOutcome × Nat) → CapabilityGovernance
  | [] => g
  | c :: rest => evalMany (evaluate_proposalCall g c.1 c.2.1 c.2.2).1 rest

end CyberGov

namespace Element

/-- `CapabilityId(pub String)` from the_element/src/lib.rs. -/
abbrev CapabilityId := String

/-- `AgentId(pub String)` from the_element/src/lib.rs. -/
abbrev AgentId := String

/-- `CapabilityDomain` from the_element/src/lib.rs. -/
inductive CapabilityDomain where
  | Cognitive
  | Motor
  | Sensory
  | Social
  | Security
  | Meta
deriving DecidableEq

/-- `CapabilityClass` from the_element/src/lib.rs. -/
inductive CapabilityClass where
  | BaselineRight
  | Enhancement
  | Experimental
deriving DecidableEq

/-- `RiskTier` from the_element/src/lib.rs. -/
inductive RiskTier where
  | Low
  | Medium
  | High
deriving DecidableEq

/-- `CyberneticAbility` from the_element/src/lib.rs. -/
structure CyberneticAbility where
  id : CapabilityId
  name : String
  domain : CapabilityDomain
  class_ : CapabilityClass
  risk_tier : RiskTier
  description : String
  requires : Finset CapabilityId
  ai_delegable : Bool
  require_explicit_opt_in : Bool
deriving DecidableEq

/-- `AgentCyberProfile` from the_element/src/lib.rs.  The `preferences`
field (an inert `serde_json::Value` blob that no operation reads or writes
after initialization to the empty object) is omitted from the model. -/
structure AgentCyberProfile where
  agent : AgentId
  enabled_capabilities : Finset CapabilityId
  blocked_capabilities : Finset CapabilityId
deriving DecidableEq

/-- `ElementConfig` from the_element/src/lib.rs. -/
structure ElementConfig where
  global_baseline_capabilities : Finset CapabilityId
  max_restriction_fraction_per_turn : ℚ
deriving DecidableEq

/-- `TheElement` from the_element/src/lib.rs; both `HashMap`s become
association lists. -/
structure TheElement where
  config : ElementConfig
  abilities : List (CapabilityId × CyberneticAbility)
  profiles : List (AgentId × AgentCyberProfile)
deriving DecidableEq

/-- `self.abilities.get(capability_id)`. -/
def lookupAbility (xs : List (CapabilityId × CyberneticAbility)) (id : CapabilityId) :
    Option CyberneticAbility :=
  (xs.find? (fun e => e.1 == id)).map (fun e => e.2)

/-- `self.profiles.get(agent)`. -/
def lookupProfile (xs : List (AgentId × AgentCyberProfile)) (agent : AgentId) :
    Option AgentCyberProfile :=
  (xs.find? (fun e => e.1 == agent)).map (fun e => e.2)

/-- Insert-or-replace a binding in the profile map. -/
def setProfile (xs : List (AgentId × AgentCyberProfile)) (agent : AgentId)
    (p : AgentCyberProfile) : List (AgentId × AgentCyberProfile) :=
  match xs with
  | [] => [(agent, p)]
  | e :: rest =>
    if e.1 == agent then (agent, p) :: rest else e :: setProfile rest agent p

/-- `TheElement::ensure_profile` (lines 116-123): `entry(..).or_insert_with`
fetches the profile, creating it seeded with the global baseline set on the
agent's first reference.  A call on `&mut self` returns the updated receiver
together with the fetched profile. -/
def ensure_profile (e : TheElement) (agent : AgentId) :
    TheElement × AgentCyberProfile :=
  match lookupProfile e.profiles agent with
  | some p => (e, p)
  | none =>
    let p : AgentCyberProfile :=
      { agent := agent
        enabled_capabilities := e.config.global_baseline_capabilities
        blocked_capabilities := ∅ }
    ({ e with profiles := setProfile e.profiles agent p }, p)

/-- `TheElement::get_profile`. -/
def get_profile (e : TheElement) (agent : AgentId) : Option AgentCyberProfile :=
  lookupProfile e.profiles agent

/-- `TheElement::request_enable` (lines 131-161).  The source interpolates the
first missing prerequisite name into the error message; since `HashSet`
iteration order is unspecified, the model uses the fixed message stem. -/
def request_enable (e : TheElement) (agent : AgentId) (capability_id : CapabilityId)
    (explicit_opt_in : Bool) : TheElement × Except String Unit :=
  match lookupAbility e.abilities capability_id with
  | none => (e, Except.error "Unknown capability")
  | some ability =>
    if ability.require_explicit_opt_in && !explicit_opt_in then
      (e, Except.error "Explicit opt-in required for this ability.")
    else
      let ep := ensure_profile e agent
      if capability_id ∈ ep.2.blocked_capabilities then
        (ep.1, Except.error "Agent has explicitly blocked this capability.")
      else if ∃ req ∈ ability.requires, req ∉ ep.2.enabled_capabilities then
        (ep.1, Except.error "Missing prerequisite capability")
      else
        let p : AgentCyberProfile :=
          { ep.2 with
              enabled_capabilities := insert capability_id ep.2.enabled_capabilities }
        ({ ep.1 with profiles := setProfile ep.1.profiles agent p },
         Except.ok ())

/-- `TheElement::request_block` (lines 164-175): unconditionally removes the
capability from `enabled_capabilities` and adds it to `blocked_capabilities`. -/
def request_block (e : TheElement) (agent : AgentId) (capability_id : CapabilityId) :
    TheElement × Except String Unit :=
  let ep := ensure_profile e agent
  let p : AgentCyberProfile :=
    { ep.2 with
      enabled_capabilities := ep.2.enabled_capabilities.erase capability_id
      blocked_capabilities := insert capability_id ep.2.blocked_capabilities }
  ({ ep.1 with profiles := setProfile ep.1.profiles agent p },
   Except.ok ())

/-- `TheElement::governance_turn` (lines 179-222).  The baseline-violation
message interpolates the offending capability in the source; the model uses
the fixed message stem (iteration order of the `HashSet` is unspecified). -/
def governance_turn (e : TheElement) (_turn_id : String) (agent : AgentId)
    (restrict unlock : Finset CapabilityId) : TheElement × Except String Unit :=
  let ep := ensure_profile e agent
  if ∃ cap ∈ restrict, cap ∈ e.config.global_baseline_capabilities then
    (ep.1, Except.error "Cannot restrict baseline capability")
  else if ((restrict.filter (fun c => c ∈ ep.2.enabled_capabilities)).card : ℚ) /
            ((max ep.2.enabled_capabilities.card 1 : Nat) : ℚ) >
          e.config.max_restriction_fraction_per_turn then
    (ep.1, Except.error "Restriction exceeds allowed per-turn fraction.")
  else
    let p : AgentCyberProfile :=
      { ep.2 with
          enabled_capabilities :=
            (ep.2.enabled_capabilities \ restrict) ∪ (unlock \ ep.2.blocked_capabilities) }
    ({ ep.1 with profiles := setProfile ep.1.profiles agent p },
     Except.ok ())

/-- The self-block invariant of claim C5: the agent's stored profile blocks
`cap` and does not enable it. -/
def selfBlockHolds (e : TheElement) (agent cap : String) : Prop :=
  ∃ p, lookupProfile e.profiles agent = some p ∧
    cap ∈ p.blocked_capabilities ∧ cap ∉ p.enabled_capabilities

end Element

namespace Steward

/-- `Did(pub String)` from planetary_stewardship_runtime/src/lib.rs. -/
abbrev Did := String

/-- `ModuleId(pub String)` from planetary_stewardship_runtime/src/lib.rs. -/
abbrev ModuleId := String

/-- `StewardModule` from planetary_stewardship_runtime/src/lib.rs. -/
inductive StewardModule where
  | PLGA
  | MME
  | VET
  | OCG
  | DCCN
  | REBL
  | PSM
  | CSC
deriving DecidableEq

/-- Whether `needle` occurs as a contiguous leading block of `hay`
(`str::starts_with` on character lists). -/
def charsLeadWith : List Char → List Char → Bool
  | [], _ => true
  | _ :: _, [] => false
  | a :: xs, b :: ys => a == b && charsLeadWith xs ys

/-- Whether `needle` occurs contiguously anywhere in `hay`
(Rust `str::contains` on character lists). -/
def charsHaveSub (needle : List Char) : List Char → Bool
  | [] => needle.isEmpty
  | b :: ys => charsLeadWith needle (b :: ys) || charsHaveSub needle ys

/-- Rust `str::contains(pat)` for string arguments. -/
def strHasSub (needle hay : String) : Bool :=
  charsHaveSub needle.data hay.data

/-- Rust `str::to_lowercase()`, modelled character-wise over the underlying
character list (structurally, so that it evaluates in the kernel). -/
def strToLower (s : String) : String :=
  ⟨s.data.map Char.toLower⟩

/-- `EthicsContext` from planetary_stewardship_runtime/src/lib.rs; the
`estimated_impact : serde_json::Value` payload (never read by `evaluate`) is
modelled as an opaque string. -/
structure EthicsContext where
  actor : Did
  affected_parties : List Did
  module : StewardModule
  description : String
  estimated_impact : String
deriving DecidableEq

/-- `EthicsDecision` from planetary_stewardship_runtime/src/lib.rs. -/
structure EthicsDecision where
  allowed : Bool
  reasons : List String
  require_rollback_plan : Bool
  require_public_intent_log : Bool
  require_consent : Bool
deriving DecidableEq

/-- `SaepConfig` from planetary_stewardship_runtime/src/lib.rs. -/
structure SaepConfig where
  enforce_non_harm : Bool
  enforce_transparency : Bool
  enforce_reversibility : Bool
  enforce_informed_consent : Bool
  enforce_commons_benefit : Bool
  forbid_punitive_scoring : Bool
deriving DecidableEq

/-- `SaepConfig::default()`. -/
def SaepConfig.default : SaepConfig :=
  { enforce_non_harm := true
    enforce_transparency := true
    enforce_reversibility := true
    enforce_informed_consent := true
    enforce_commons_benefit := true
    forbid_punitive_scoring := true }

/-- `SaepEngine` from planetary_stewardship_runtime/src/lib.rs. -/
structure SaepEngine where
  config : SaepConfig
deriving DecidableEq

/-- `SaepEngine::evaluate` (lines 100-145).  The imperative accumulation of
`allowed`/`reasons` is rendered functionally: the non-harm keyword check runs
first, the commons-benefit check second, each appending its reason and
clearing `allowed`. -/
def SaepEngine.evaluate (e : SaepEngine) (ctx : EthicsContext) : EthicsDecision :=
  let descLower := strToLower ctx.description
  let nonHarmHit := e.config.enforce_non_harm &&
    (strHasSub "weapon" descLower || strHasSub "coercive" descLower)
  let commonsHit := e.config.enforce_commons_benefit &&
    strHasSub "exclusive monetization" descLower
  { allowed := !nonHarmHit && !commonsHit
    reasons :=
      (if nonHarmHit then ["non_harm: detected potential harmful or coercive intent"] else []) ++
        (if commonsHit then ["commons_benefit: private hoarding flagged"] else [])
    require_rollback_plan := e.config.enforce_reversibility
    require_public_intent_log := e.config.enforce_transparency
    require_consent := e.config.enforce_informed_consent }

/-- `GovernanceScope` from planetary_stewardship_runtime/src/lib.rs. -/
inductive GovernanceScope where
  | Module (mid : ModuleId)
  | EcosystemWide
deriving DecidableEq

/-- `GovernanceProposal` from planetary_stewardship_runtime/src/lib.rs; the
JSON `payload` is modelled as an opaque string. -/
structure GovernanceProposal where
  proposal_id : String
  scope : GovernanceScope
  title : String
  description : String
  payload : String
  can_introduce_restrictions : Bool
deriving DecidableEq

/-- `QuadraticOutcome` from planetary_stewardship_runtime/src/lib.rs (`f64`
tallies as `ℚ`). -/
structure QuadraticOutcome where
  proposal_id : String
  total_support : ℚ
  total_opposition : ℚ
deriving DecidableEq

/-- `GovernanceEngine` from planetary_stewardship_runtime/src/lib.rs. -/
structure GovernanceEngine where
  saep : SaepEngine
  charter_bound_modules : Finset StewardModule
deriving DecidableEq

/-- `GovernanceEngine::new`: binds every module except `CSC` to the charter. -/
def GovernanceEngine.new (saep : SaepEngine) : GovernanceEngine :=
  { saep := saep
    charter_bound_modules :=
      {StewardModule.PLGA, StewardModule.MME, StewardModule.VET, StewardModule.OCG,
       StewardModule.DCCN, StewardModule.REBL, StewardModule.PSM} }

/-- The scope-to-module mapping inside `can_apply_proposal` (lines 461-476):
unrecognized module ids and the ecosystem-wide scope collapse to `CSC`. -/
def moduleOfScope : GovernanceScope → StewardModule
  | GovernanceScope.Module mid =>
    match mid with
    | "PLGA" => StewardModule.PLGA
    | "MME" => StewardModule.MME
    | "VET" => StewardModule.VET
    | "OCG" => StewardModule.OCG
    | "DCCN" => StewardModule.DCCN
    | "REBL" => StewardModule.REBL
    | "PSM" => StewardModule.PSM
    | "CSC" => StewardModule.CSC
    | _ => StewardModule.CSC
  | GovernanceScope.EcosystemWide => StewardModule.CSC

/-- The `EthicsContext` built inside `can_apply_proposal` (lines 478-484). -/
def govCtx (proposal : GovernanceProposal) : EthicsContext :=
  { actor := "did:psv:governance:collective"
    affected_parties := []
    module := moduleOfScope proposal.scope
    description := proposal.description
    estimated_impact := proposal.payload }

/-- `GovernanceEngine::can_apply_proposal` (lines 450-502).  The veto error
interpolates the decision's `reasons` with `Debug` formatting in the source;
the model joins them with a comma separator after the fixed stem. -/
def can_apply_proposal (eng : GovernanceEngine) (proposal : GovernanceProposal)
    (outcome : QuadraticOutcome) : Except String Bool :=
  if outcome.total_support ≤ outcome.total_opposition then
    Except.ok false
  else
    let decision := eng.saep.evaluate (govCtx proposal)
    if decision.allowed = false then
      Except.error ("Ethics-kernel vetoed governance proposal: " ++
        String.intercalate ", " decision.reasons)
    else if proposal.can_introduce_restrictions &&
            moduleOfScope proposal.scope ∈ eng.charter_bound_modules then
      if strHasSub "weapon" (strToLower proposal.description) ||
         strHasSub "military" (strToLower proposal.description) then
        Except.error "CSC: disallows militarization or harmful use in charter-bound modules."
      else
        Except.ok true
    else
      Except.ok true

end Steward

namespace Scenario

open CyberGov Element Steward

/-- Domain for the C1 rejection scenario: 7 allowed capabilities, floor 5. -/
def domC1 : CompetitiveDomain :=
  { id := "arena"
    description := "bci xr arena"
    allowed_capabilities := {"a", "b", "c", "d", "e", "f", "g"}
    min_capability_count := 5 }

def stateC1 : DomainState := { domain := domC1, disabled_capabilities := ∅ }

def gC1 : CapabilityGovernance :=
  { constitution :=
      { global_min_capability_floor := 4
        max_restriction_fraction_per_turn := 1 / 2
        min_supermajority_floor := 67 / 100
        hard_protect_safety_capabilities := true
        globally_nonrestrictable := ∅ }
    domains := [("arena", stateC1)] }

def pC1 : CyberGov.GovernanceProposal :=
  { proposal_id := "p1"
    domain_id := "arena"
    restrict_capabilities := {"a", "b", "c"}
    protect_capabilities := ∅
    required_supermajority := 3 / 4
    activation_height := 10 }

def vC1 : GovernanceVoteOutcome :=
  { proposal_id := "p1", yes_weight := 80, no_weight := 20, finalized_height := 10 }

/-- Domain with 10 allowed capabilities for the C1 applied-case witness. -/
def domC1b : CompetitiveDomain :=
  { id := "grid"
    description := "xr grid"
    allowed_capabilities := {"a", "b", "c", "d", "e", "f", "g", "h", "i", "j"}
    min_capability_count := 5 }

def stateC1b : DomainState := { domain := domC1b, disabled_capabilities := ∅ }

def gC1b : CapabilityGovernance :=
  { constitution :=
      { global_min_capability_floor := 4
        max_restriction_fraction_per_turn := 2 / 5
        min_supermajority_floor := 2 / 3
        hard_protect_safety_capabilities := true
        globally_nonrestrictable := ∅ }
    domains := [("grid", stateC1b)] }

def pC1b : CyberGov.GovernanceProposal :=
  { proposal_id := "p1b"
    domain_id := "grid"
    restrict_capabilities := {"a", "b", "c"}
    protect_capabilities := ∅
    required_supermajority := 3 / 4
    activation_height := 0 }

def vC1b : GovernanceVoteOutcome :=
  { proposal_id := "p1b", yes_weight := 9, no_weight := 1, finalized_height := 0 }

def nsC1b : DomainState :=
  { stateC1b with
      disabled_capabilities := hardProtectFilter gC1b (tentativeDisabled gC1b stateC1b pC1b) }

/-- C2 witness: the input disabled set already intersects the nonrestrictable
set, and the proposal restricts a nonrestrictable capability. -/
def domC2 : CompetitiveDomain :=
  { id := "d2"
    description := "d2"
    allowed_capabilities := {"a", "b", "c"}
    min_capability_count := 0 }

def stateC2 : DomainState := { domain := domC2, disabled_capabilities := {"a"} }

def gC2 : CapabilityGovernance :=
  { constitution :=
      { global_min_capability_floor := 0
        max_restriction_fraction_per_turn := 1
        min_supermajority_floor := 0
        hard_protect_safety_capabilities := true
        globally_nonrestrictable := {"a"} }
    domains := [("d2", stateC2)] }

def pC2 : CyberGov.GovernanceProposal :=
  { proposal_id := "p2"
    domain_id := "d2"
    restrict_capabilities := {"a", "b"}
    protect_capabilities := ∅
    required_supermajority := 1 / 2
    activation_height := 0 }

def vC2 : GovernanceVoteOutcome :=
  { proposal_id := "p2", yes_weight := 1, no_weight := 0, finalized_height := 0 }

def nsC2 : DomainState :=
  { stateC2 with
      disabled_capabilities := hardProtectFilter gC2 (tentativeDisabled gC2 stateC2 pC2) }

/-- C3 counterexample: the proposal restricts capability `"b"`, which is not a
member of the domain's allowed set `{"a"}`. -/
def domC3 : CompetitiveDomain :=
  { id := "d3"
    description := "d3"
    allowed_capabilities := {"a"}
    min_capability_count := 0 }

def stateC3 : DomainState := { domain := domC3, disabled_capabilities := ∅ }

def gC3 : CapabilityGovernance :=
  { constitution :=
      { global_min_capability_floor := 0
        max_restriction_fraction_per_turn := 1
        min_supermajority_floor := 0
        hard_protect_safety_capabilities := false
        globally_nonrestrictable := ∅ }
    domains := [("d3", stateC3)] }

def pC3 : CyberGov.GovernanceProposal :=
  { proposal_id := "p3"
    domain_id := "d3"
    restrict_capabilities := {"b"}
    protect_capabilities := ∅
    required_supermajority := 1 / 2
    activation_height := 0 }

def vC3 : GovernanceVoteOutcome :=
  { proposal_id := "p3", yes_weight := 1, no_weight := 0, finalized_height := 0 }

def nsC3 : DomainState :=
  { stateC3 with
      disabled_capabilities := hardProtectFilter gC3 (tentativeDisabled gC3 stateC3 pC3) }

/-- C3 witness: same shape but the restricted capability is allowed. -/
def domC3w : CompetitiveDomain :=
  { id := "d3w"
    description := "d3w"
    allowed_capabilities := {"a", "b", "c"}
    min_capability_count := 0 }

def stateC3w : DomainState := { domain := domC3w, disabled_capabilities := ∅ }

def gC3w : CapabilityGovernance :=
  { constitution :=
      { global_min_capability_floor := 0
        max_restriction_fraction_per_turn := 1
        min_supermajority_floor := 0
        hard_protect_safety_capabilities := false
        globally_nonrestrictable := ∅ }
    domains := [("d3w", stateC3w)] }

def pC3w : CyberGov.GovernanceProposal :=
  { proposal_id := "p3w"
    domain_id := "d3w"
    restrict_capabilities := {"a"}
    protect_capabilities := ∅
    required_supermajority := 1 / 2
    activation_height := 0 }

def vC3w : GovernanceVoteOutcome :=
  { proposal_id := "p3w", yes_weight := 1, no_weight := 0, finalized_height := 0 }

def nsC3w : DomainState :=
  { stateC3w with
      disabled_capabilities := hardProtectFilter gC3w (tentativeDisabled gC3w stateC3w pC3w) }

/-- C6 counterexample (accepted proposal): the cap is `1`, the single-capability
domain is fully restrictable, and the proposal restricts three foreign
capabilities, so three capabilities are newly disabled against a total of one. -/
def domC6x : CompetitiveDomain :=
  { id := "d6x"
    description := "d6x"
    allowed_capabilities := {"a"}
    min_capability_count := 0 }

def stateC6x : DomainState := { domain := domC6x, disabled_capabilities := ∅ }

def gC6x : CapabilityGovernance :=
  { constitution :=
      { global_min_capability_floor := 0
        max_restriction_fraction_per_turn := 1
        min_supermajority_floor := 0
        hard_protect_safety_capabilities := false
        globally_nonrestrictable := ∅ }
    domains := [("d6x", stateC6x)] }

def pC6x : CyberGov.GovernanceProposal :=
  { proposal_id := "p6x"
    domain_id := "d6x"
    restrict_capabilities := {"x", "y", "z"}
    protect_capabilities := ∅
    required_supermajority := 1 / 2
    activation_height := 0 }

def vC6x : GovernanceVoteOutcome :=
  { proposal_id := "p6x", yes_weight := 1, no_weight := 0, finalized_height := 0 }

def nsC6x : DomainState :=
  { stateC6x with
      disabled_capabilities := hardProtectFilter gC6x (tentativeDisabled gC6x stateC6x pC6x) }

/-- C6 counterexample (rejection side): the tentative disabled fraction `1/2`
exceeds the cap `1/10`, yet the evaluator reports the domain-floor error. -/
def domC6y : CompetitiveDomain :=
  { id := "d6y"
    description := "d6y"
    allowed_capabilities := {"a", "b"}
    min_capability_count := 2 }

def stateC6y : DomainState := { domain := domC6y, disabled_capabilities := ∅ }

def gC6y : CapabilityGovernance :=
  { constitution :=
      { global_min_capability_floor := 0
        max_restriction_fraction_per_turn := 1 / 10
        min_supermajority_floor := 0
        hard_protect_safety_capabilities := false
        globally_nonrestrictable := ∅ }
    domains := [("d6y", stateC6y)] }

def pC6y : CyberGov.GovernanceProposal :=
  { proposal_id := "p6y"
    domain_id := "d6y"
    restrict_capabilities := {"a"}
    protect_capabilities := ∅
    required_supermajority := 1 / 2
    activation_height := 0 }

def vC6y : GovernanceVoteOutcome :=
  { proposal_id := "p6y", yes_weight := 1, no_weight := 0, finalized_height := 0 }

/-- C6 witness (accepted side): one of two capabilities restricted under cap
`1/2`. -/
def domC6w : CompetitiveDomain :=
  { id := "d6w"
    description := "d6w"
    allowed_capabilities := {"a", "b"}
    min_capability_count := 0 }

def stateC6w : DomainState := { domain := domC6w, disabled_capabilities := ∅ }

def gC6w : CapabilityGovernance :=
  { constitution :=
      { global_min_capability_floor := 0
        max_restriction_fraction_per_turn := 1 / 2
        min_supermajority_floor := 0
        hard_protect_safety_capabilities := false
        globally_nonrestrictable := ∅ }
    domains := [("d6w", stateC6w)] }

def pC6w : CyberGov.GovernanceProposal :=
  { proposal_id := "p6w"
    domain_id := "d6w"
    restrict_capabilities := {"a"}
    protect_capabilities := ∅
    required_supermajority := 1 / 2
    activation_height := 0 }

def vC6w : GovernanceVoteOutcome :=
  { proposal_id := "p6w", yes_weight := 1, no_weight := 0, finalized_height := 0 }

def nsC6w : DomainState :=
  { stateC6w with
      disabled_capabilities := hardProtectFilter gC6w (tentativeDisabled gC6w stateC6w pC6w) }

/-- C6 witness (rate-rejection side): half of four capabilities restricted
under cap `1/4`, floors at zero. -/
def domC6z : CompetitiveDomain :=
  { id := "d6z"
    description := "d6z"
    allowed_capabilities := {"a", "b", "c", "d"}
    min_capability_count := 0 }

def stateC6z : DomainState := { domain := domC6z, disabled_capabilities := ∅ }

def gC6z : CapabilityGovernance :=
  { constitution :=
      { global_min_capability_floor := 0
        max_restriction_fraction_per_turn := 1 / 4
        min_supermajority_floor := 0
        hard_protect_safety_capabilities := false
        globally_nonrestrictable := ∅ }
    domains := [("d6z", stateC6z)] }

def pC6z : CyberGov.GovernanceProposal :=
  { proposal_id := "p6z"
    domain_id := "d6z"
    restrict_capabilities := {"a", "b"}
    protect_capabilities := ∅
    required_supermajority := 1 / 2
    activation_height := 0 }

def vC6z : GovernanceVoteOutcome :=
  { proposal_id := "p6z", yes_weight := 1, no_weight := 0, finalized_height := 0 }

/-- C4 counterexample: an element with one baseline capability and no stored
profiles; a failing governance turn still materializes a profile. -/
def eC4 : TheElement :=
  { config :=
      { global_baseline_capabilities := {"exit"}
        max_restriction_fraction_per_turn := 1 / 3 }
    abilities := []
    profiles := [] }

/-- The profile `ensure_profile` creates for a fresh agent of `eC4`. -/
def freshC4 : AgentCyberProfile :=
  { agent := "bob"
    enabled_capabilities := {"exit"}
    blocked_capabilities := ∅ }

/-- C4 witness: an element whose profile map already holds a profile for
`"alice"`. -/
def pAlice : AgentCyberProfile :=
  { agent := "alice"
    enabled_capabilities := {"exit"}
    blocked_capabilities := ∅ }

def eC4w : TheElement :=
  { config :=
      { global_baseline_capabilities := {"exit"}
        max_restriction_fraction_per_turn := 1 / 3 }
    abilities := []
    profiles := [("alice", pAlice)] }

/-- C5 witness element: one registered ability `"x"` with no prerequisites and
no opt-in requirement. -/
def abX : CyberneticAbility :=
  { id := "x"
    name := "x"
    domain := CapabilityDomain.Meta
    class_ := CapabilityClass.Enhancement
    risk_tier := RiskTier.Low
    description := "x"
    requires := ∅
    ai_delegable := false
    require_explicit_opt_in := false }

def eC5 : TheElement :=
  { config :=
      { global_baseline_capabilities := ∅
        max_restriction_fraction_per_turn := 1 }
    abilities := [("x", abX)]
    profiles := [] }

/-- C5 counterexample element: empty ability catalog. -/
def eC5c : TheElement :=
  { config :=
      { global_baseline_capabilities := ∅
        max_restriction_fraction_per_turn := 1 }
    abilities := []
    profiles := [] }

/-- C8 engine and scenarios. -/
def engC8 : GovernanceEngine := GovernanceEngine.new { config := SaepConfig.default }

def pC8 : Steward.GovernanceProposal :=
  { proposal_id := "p8"
    scope := GovernanceScope.EcosystemWide
    title := "t"
    description := "deploy weapon grid"
    payload := ""
    can_introduce_restrictions := true }

/-- Outcome with support not exceeding opposition. -/
def oC8 : QuadraticOutcome :=
  { proposal_id := "p8", total_support := 0, total_opposition := 1 }

/-- Outcome with support strictly exceeding opposition. -/
def oC8w : QuadraticOutcome :=
  { proposal_id := "p8", total_support := 2, total_opposition := 1 }

end Scenario

/-- Inversion of an `Applied` evaluator result: the stored state exists, the
returned state is the hard-protect-filtered tentative state, and all three
constitutional checks passed. -/
theorem evaluateOkSomeInv {g : CyberGov.CapabilityGovernance}
    {p : CyberGov.GovernanceProposal} {v : CyberGov.GovernanceVoteOutcome}
    {hgt : Nat} {ns : CyberGov.DomainState}
    (h : CyberGov.evaluate_proposal g p v hgt = Except.ok (some ns)) :
    ∃ state, CyberGov.lookupDomain g.domains p.domain_id = some state ∧
      ns = { state with
        disabled_capabilities :=
          CyberGov.hardProtectFilter g (CyberGov.tentativeDisabled g state p) } ∧
      state.domain.min_capability_count ≤
        state.domain.allowed_capabilities.card -
          min (CyberGov.tentativeDisabled g state p).card
            state.domain.allowed_capabilities.card ∧
      g.constitution.global_min_capability_floor ≤
        state.domain.allowed_capabilities.card -
          min (CyberGov.tentativeDisabled g state p).card
            state.domain.allowed_capabilities.card ∧
      (((min (CyberGov.tentativeDisabled g state p).card
          state.domain.allowed_capabilities.card : ℕ) : ℚ) /
          (state.domain.allowed_capabilities.card : ℚ)) ≤
        g.constitution.max_restriction_fraction_per_turn := by
  unfold CyberGov.evaluate_proposal at h
  rcases hd : CyberGov.lookupDomain g.domains p.domain_id with _ | state
  · rw [hd] at h
    simp at h
  · rw [hd] at h
    simp only at h
    split_ifs at h with h1 h2 h3 h4 h5 h6 <;>
      first
      | (simp only [Except.ok.injEq, Option.some.injEq] at h
         exact ⟨state, rfl, h.symm, Nat.le_of_not_lt h4, Nat.le_of_not_lt h5,
           le_of_not_lt h6⟩)
      | exact absurd h (by simp)

/-- Looking up an agent right after `setProfile` returns the stored profile. -/
theorem lookupSetProfile (xs : List (Element.AgentId × Element.AgentCyberProfile))
    (agent : Element.AgentId) (p : Element.AgentCyberProfile) :
    Element.lookupProfile (Element.setProfile xs agent p) agent = some p := by
  induction xs with
  | nil => simp [Element.setProfile, Element.lookupProfile, List.find?]
  | cons e rest ih =>
    by_cases he : e.1 == agent
    · simp [Element.setProfile, he, Element.lookupProfile, List.find?]
    · simp only [Element.setProfile, he, Bool.false_eq_true, if_false]
      simpa [Element.lookupProfile, List.find?, he] using ih

/-- `ensure_profile` on an agent that already has a profile is the identity on
the element. -/
theorem ensureOfSome {e : Element.TheElement} {agent : Element.AgentId}
    {p : Element.AgentCyberProfile}
    (h : Element.lookupProfile e.profiles agent = some p) :
    Element.ensure_profile e agent = (e, p) := by
  unfold Element.ensure_profile
  rw [h]

/-- When the domain exists and the timing, quorum and supermajority gates
pass, and all three constitutional checks pass, the evaluator applies the
proposal, returning the hard-protect-filtered tentative state. -/
theorem evalAppliedOfChecks {g : CyberGov.CapabilityGovernance}
    {p : CyberGov.GovernanceProposal} {v : CyberGov.GovernanceVoteOutcome}
    {hgt : Nat} {state : CyberGov.DomainState}
    (hd : CyberGov.lookupDomain g.domains p.domain_id = some state)
    (h1 : ¬ (hgt < p.activation_height ∨ v.finalized_height < p.activation_height))
    (h2 : ¬ (CyberGov.voteTotal v = 0))
    (h3 : ¬ (CyberGov.yesFraction v < p.required_supermajority ∨
             CyberGov.yesFraction v < g.constitution.min_supermajority_floor))
    (h4 : ¬ (state.domain.allowed_capabilities.card -
               min (CyberGov.tentativeDisabled g state p).card
                 state.domain.allowed_capabilities.card <
             state.domain.min_capability_count))
    (h5 : ¬ (state.domain.allowed_capabilities.card -
               min (CyberGov.tentativeDisabled g state p).card
                 state.domain.allowed_capabilities.card <
             g.constitution.global_min_capability_floor))
    (h6 : ¬ ((((min (CyberGov.tentativeDisabled g state p).card
                 state.domain.allowed_capabilities.card : ℕ) : ℚ) /
               (state.domain.allowed_capabilities.card : ℚ)) >
             g.constitution.max_restriction_fraction_per_turn)) :
    CyberGov.evaluate_proposal g p v hgt = Except.ok (some { state with
      disabled_capabilities :=
        CyberGov.hardProtectFilter g (CyberGov.tentativeDisabled g state p) }) := by
  unfold CyberGov.evaluate_proposal
  rw [hd]
  simp only
  rw [if_neg h1, if_neg h2, if_neg h3, if_neg h4, if_neg h5, if_neg h6]

/-- When the gates pass but the domain floor is violated, the evaluator
returns the domain-floor rejection. -/
theorem evalDomainFloorErrOfChecks {g : CyberGov.CapabilityGovernance}
    {p : CyberGov.GovernanceProposal} {v : CyberGov.GovernanceVoteOutcome}
    {hgt : Nat} {state : CyberGov.DomainState}
    (hd : CyberGov.lookupDomain g.domains p.domain_id = some state)
    (h1 : ¬ (hgt < p.activation_height ∨ v.finalized_height < p.activation_height))
    (h2 : ¬ (CyberGov.voteTotal v = 0))
    (h3 : ¬ (CyberGov.yesFraction v < p.required_supermajority ∨
             CyberGov.yesFraction v < g.constitution.min_supermajority_floor))
    (h4 : state.domain.allowed_capabilities.card -
            min (CyberGov.tentativeDisabled g state p).card
              state.domain.allowed_capabilities.card <
          state.domain.min_capability_count) :
    CyberGov.evaluate_proposal g p v hgt =
      Except.error "Proposal would violate domain.min_capability_count; rejected" := by
  unfold CyberGov.evaluate_proposal
  rw [hd]
  simp only
  rw [if_neg h1, if_neg h2, if_neg h3, if_pos h4]

/-- When the gates and both floor checks pass but the tentative restriction
fraction exceeds the constitutional cap, the evaluator returns the rate-limit
rejection. -/
theorem evalRateErrOfChecks {g : CyberGov.CapabilityGovernance}
    {p : CyberGov.GovernanceProposal} {v : CyberGov.GovernanceVoteOutcome}
    {hgt : Nat} {state : CyberGov.DomainState}
    (hd : CyberGov.lookupDomain g.domains p.domain_id = some state)
    (h1 : ¬ (hgt < p.activation_height ∨ v.finalized_height < p.activation_height))
    (h2 : ¬ (CyberGov.voteTotal v = 0))
    (h3 : ¬ (CyberGov.yesFraction v < p.required_supermajority ∨
             CyberGov.yesFraction v < g.constitution.min_supermajority_floor))
    (h4 : ¬ (state.domain.allowed_capabilities.card -
               min (CyberGov.tentativeDisabled g state p).card
                 state.domain.allowed_capabilities.card <
             state.domain.min_capability_count))
    (h5 : ¬ (state.domain.allowed_capabilities.card -
               min (CyberGov.tentativeDisabled g state p).card
                 state.domain.allowed_capabilities.card <
             g.constitution.global_min_capability_floor))
    (h6 : (((min (CyberGov.tentativeDisabled g state p).card
               state.domain.allowed_capabilities.card : ℕ) : ℚ) /
             (state.domain.allowed_capabilities.card : ℚ)) >
          g.constitution.max_restriction_fraction_per_turn) :
    CyberGov.evaluate_proposal g p v hgt =
      Except.error "Proposal over max_restriction_fraction_per_turn; rejected" := by
  unfold CyberGov.evaluate_proposal
  rw [hd]
  simp only
  rw [if_neg h1, if_neg h2, if_neg h3, if_neg h4, if_neg h5, if_pos h6]

/-- The C1 rejection scenario evaluates to the domain-floor error. -/
theorem evalC1Scenario :
    CyberGov.evaluate_proposal Scenario.gC1 Scenario.pC1 Scenario.vC1 10 =
      Except.error "Proposal would violate domain.min_capability_count; rejected" :=
  evalDomainFloorErrOfChecks rfl (by decide) (by decide)
    (by
      have hv : CyberGov.voteTotal Scenario.vC1 = 100 := by decide
      simp only [CyberGov.yesFraction, hv]
      norm_num [Scenario.vC1, Scenario.pC1, Scenario.gC1])
    (by decide)

/-- The C1 witness scenario (10 capabilities, 3 restricted) is applied. -/
theorem evalC1bApplied :
    CyberGov.evaluate_proposal Scenario.gC1b Scenario.pC1b Scenario.vC1b 0 =
      Except.ok (some Scenario.nsC1b) :=
  evalAppliedOfChecks rfl (by decide) (by decide)
    (by
      have hv : CyberGov.voteTotal Scenario.vC1b = 10 := by decide
      simp only [CyberGov.yesFraction, hv]
      norm_num [Scenario.vC1b, Scenario.pC1b, Scenario.gC1b])
    (by decide) (by decide)
    (by
      have hmin : min (CyberGov.tentativeDisabled Scenario.gC1b Scenario.stateC1b
          Scenario.pC1b).card Scenario.stateC1b.domain.allowed_capabilities.card = 3 := by
        decide
      have hcard : Scenario.stateC1b.domain.allowed_capabilities.card = 10 := by decide
      rw [hmin, hcard]
      norm_num [Scenario.gC1b])

/-- The C2 witness scenario is applied. -/
theorem evalC2Applied :
    CyberGov.evaluate_proposal Scenario.gC2 Scenario.pC2 Scenario.vC2 0 =
      Except.ok (some Scenario.nsC2) :=
  evalAppliedOfChecks rfl (by decide) (by decide)
    (by
      have hv : CyberGov.voteTotal Scenario.vC2 = 1 := by decide
      simp only [CyberGov.yesFraction, hv]
      norm_num [Scenario.vC2, Scenario.pC2, Scenario.gC2])
    (by decide) (by decide)
    (by
      have hmin : min (CyberGov.tentativeDisabled Scenario.gC2 Scenario.stateC2
          Scenario.pC2).card Scenario.stateC2.domain.allowed_capabilities.card = 2 := by
        decide
      have hcard : Scenario.stateC2.domain.allowed_capabilities.card = 3 := by decide
      rw [hmin, hcard]
      norm_num [Scenario.gC2])

/-- The C3 counterexample scenario (foreign capability restricted) is applied. -/
theorem evalC3Applied :
    CyberGov.evaluate_proposal Scenario.gC3 Scenario.pC3 Scenario.vC3 0 =
      Except.ok (some Scenario.nsC3) :=
  evalAppliedOfChecks rfl (by decide) (by decide)
    (by
      have hv : CyberGov.voteTotal Scenario.vC3 = 1 := by decide
      simp only [CyberGov.yesFraction, hv]
      norm_num [Scenario.vC3, Scenario.pC3, Scenario.gC3])
    (by decide) (by decide)
    (by
      have hmin : min (CyberGov.tentativeDisabled Scenario.gC3 Scenario.stateC3
          Scenario.pC3).card Scenario.stateC3.domain.allowed_capabilities.card = 1 := by
        decide
      have hcard : Scenario.stateC3.domain.allowed_capabilities.card = 1 := by decide
      rw [hmin, hcard]
      norm_num [Scenario.gC3])

/-- The C3 witness scenario (allowed capability restricted) is applied. -/
theorem evalC3wApplied :
    CyberGov.evaluate_proposal Scenario.gC3w Scenario.pC3w Scenario.vC3w 0 =
      Except.ok (some Scenario.nsC3w) :=
  evalAppliedOfChecks rfl (by decide) (by decide)
    (by
      have hv : CyberGov.voteTotal Scenario.vC3w = 1 := by decide
      simp only [CyberGov.yesFraction, hv]
      norm_num [Scenario.vC3w, Scenario.pC3w, Scenario.gC3w])
    (by decide) (by decide)
    (by
      have hmin : min (CyberGov.tentativeDisabled Scenario.gC3w Scenario.stateC3w
          Scenario.pC3w).card Scenario.stateC3w.domain.allowed_capabilities.card = 1 := by
        decide
      have hcard : Scenario.stateC3w.domain.allowed_capabilities.card = 3 := by decide
      rw [hmin, hcard]
      norm_num [Scenario.gC3w])

/-- The C6 counterexample scenario (three foreign capabilities against a
single-capability domain) is applied. -/
theorem evalC6xApplied :
    CyberGov.evaluate_proposal Scenario.gC6x Scenario.pC6x Scenario.vC6x 0 =
      Except.ok (some Scenario.nsC6x) :=
  evalAppliedOfChecks rfl (by decide) (by decide)
    (by
      have hv : CyberGov.voteTotal Scenario.vC6x = 1 := by decide
      simp only [CyberGov.yesFraction, hv]
      norm_num [Scenario.vC6x, Scenario.pC6x, Scenario.gC6x])
    (by decide) (by decide)
    (by
      have hmin : min (CyberGov.tentativeDisabled Scenario.gC6x Scenario.stateC6x
          Scenario.pC6x).card Scenario.stateC6x.domain.allowed_capabilities.card = 1 := by
        decide
      have hcard : Scenario.stateC6x.domain.allowed_capabilities.card = 1 := by decide
      rw [hmin, hcard]
      norm_num [Scenario.gC6x])

/-- The C6 floor-preemption scenario: the tentative fraction `1/2` exceeds the
cap `1/10`, yet the evaluator reports the domain-floor error. -/
theorem evalC6yFloorErr :
    CyberGov.evaluate_proposal Scenario.gC6y Scenario.pC6y Scenario.vC6y 0 =
      Except.error "Proposal would violate domain.min_capability_count; rejected" :=
  evalDomainFloorErrOfChecks rfl (by decide) (by decide)
    (by
      have hv : CyberGov.voteTotal Scenario.vC6y = 1 := by decide
      simp only [CyberGov.yesFraction, hv]
      norm_num [Scenario.vC6y, Scenario.pC6y, Scenario.gC6y])
    (by decide)

/-- The C6 witness scenario (one of two capabilities restricted at cap `1/2`)
is applied. -/
theorem evalC6wApplied :
    CyberGov.evaluate_proposal Scenario.gC6w Scenario.pC6w Scenario.vC6w 0 =
      Except.ok (some Scenario.nsC6w) :=
  evalAppliedOfChecks rfl (by decide) (by decide)
    (by
      have hv : CyberGov.voteTotal Scenario.vC6w = 1 := by decide
      simp only [CyberGov.yesFraction, hv]
      norm_num [Scenario.vC6w, Scenario.pC6w, Scenario.gC6w])
    (by decide) (by decide)
    (by
      have hmin : min (CyberGov.tentativeDisabled Scenario.gC6w Scenario.stateC6w
          Scenario.pC6w).card Scenario.stateC6w.domain.allowed_capabilities.card = 1 := by
        decide
      have hcard : Scenario.stateC6w.domain.allowed_capabilities.card = 2 := by decide
      rw [hmin, hcard]
      norm_num [Scenario.gC6w])

/-- The C6 rate-rejection witness scenario: two of four capabilities restricted
at cap `1/4` produces the rate-limit error. -/
theorem evalC6zRateErr :
    CyberGov.evaluate_proposal Scenario.gC6z Scenario.pC6z Scenario.vC6z 0 =
      Except.error "Proposal over max_restriction_fraction_per_turn; rejected" :=
  evalRateErrOfChecks rfl (by decide) (by decide)
    (by
      have hv : CyberGov.voteTotal Scenario.vC6z = 1 := by decide
      simp only [CyberGov.yesFraction, hv]
      norm_num [Scenario.vC6z, Scenario.pC6z, Scenario.gC6z])
    (by decide) (by decide)
    (by
      have hmin : min (CyberGov.tentativeDisabled Scenario.gC6z Scenario.stateC6z
          Scenario.pC6z).card Scenario.stateC6z.domain.allowed_capabilities.card = 2 := by
        decide
      have hcard : Scenario.stateC6z.domain.allowed_capabilities.card = 4 := by decide
      rw [hmin, hcard]
      norm_num [Scenario.gC6z])

/-- The supermajority gate of the C1 rejection scenario passes (80 percent yes
against the 75 percent supermajority and the 67 percent constitutional
floor). -/
theorem superC1 :
    ¬ (CyberGov.yesFraction Scenario.vC1 < Scenario.pC1.required_supermajority ∨
       CyberGov.yesFraction Scenario.vC1 <
         Scenario.gC1.constitution.min_supermajority_floor) := by
  have hv : CyberGov.voteTotal Scenario.vC1 = 100 := by decide
  simp only [CyberGov.yesFraction, hv]
  norm_num [Scenario.vC1, Scenario.pC1, Scenario.gC1]

/-- C1: Floor monotonicity.  Whenever `evaluate_proposal` returns
`Ok(Some(new_state))`, the enabled count of the returned state — the allowed
cardinality minus the capped disabled count — is at least the maximum of the
domain floor and the constitutional global floor; once the timing, quorum and
supermajority gates pass, a proposal whose tentative enabled count falls below
either floor produces an `Err`, never an `Applied` result; and the concrete
7-capability scenario (floor 5, global floor 4, 3 restrictions, 80 percent yes
against a 75 percent supermajority and a 67 percent constitutional floor, with
timing satisfied) yields exactly the domain-floor rejection error. -/
theorem c1_floor_monotonicity :
    (∀ (g : CyberGov.CapabilityGovernance) (p : CyberGov.GovernanceProposal)
       (v : CyberGov.GovernanceVoteOutcome) (hgt : Nat) (ns : CyberGov.DomainState),
       CyberGov.evaluate_proposal g p v hgt = Except.ok (some ns) →
       max ns.domain.min_capability_count g.constitution.global_min_capability_floor ≤
         ns.domain.allowed_capabilities.card -
           min ns.disabled_capabilities.card ns.domain.allowed_capabilities.card) ∧
    (∀ (g : CyberGov.CapabilityGovernance) (p : CyberGov.GovernanceProposal)
       (v : CyberGov.GovernanceVoteOutcome) (hgt : Nat) (state : CyberGov.DomainState),
       CyberGov.lookupDomain g.domains p.domain_id = some state →
       ¬ (hgt < p.activation_height ∨ v.finalized_height < p.activation_height) →
       CyberGov.voteTotal v ≠ 0 →
       ¬ (CyberGov.yesFraction v < p.required_supermajority ∨
          CyberGov.yesFraction v < g.constitution.min_supermajority_floor) →
       (state.domain.allowed_capabilities.card -
            min (CyberGov.tentativeDisabled g state p).card
              state.domain.allowed_capabilities.card <
            state.domain.min_capability_count ∨
        state.domain.allowed_capabilities.card -
            min (CyberGov.tentativeDisabled g state p).card
              state.domain.allowed_capabilities.card <
            g.constitution.global_min_capability_floor) →
       resultIsOk (CyberGov.evaluate_proposal g p v hgt) = false) ∧
    CyberGov.evaluate_proposal Scenario.gC1 Scenario.pC1 Scenario.vC1 10 =
      Except.error "Proposal would violate domain.min_capability_count; rejected" := by
  refine ⟨?_, ?_, evalC1Scenario⟩
  · intro g p v hgt ns h
    obtain ⟨state, hd, hns, hmin, hfl, _⟩ := evaluateOkSomeInv h
    subst hns
    simp only
    have hcard : (CyberGov.hardProtectFilter g (CyberGov.tentativeDisabled g state p)).card ≤
        (CyberGov.tentativeDisabled g state p).card := Finset.card_filter_le _ _
    have hmm : min (CyberGov.hardProtectFilter g (CyberGov.tentativeDisabled g state p)).card
          state.domain.allowed_capabilities.card ≤
        min (CyberGov.tentativeDisabled g state p).card
          state.domain.allowed_capabilities.card :=
      min_le_min hcard (le_refl _)
    have hsub := Nat.sub_le_sub_left hmm state.domain.allowed_capabilities.card
    exact max_le (le_trans hmin hsub) (le_trans hfl hsub)
  · intro g p v hgt state hd h1 h2 h3 hviol
    unfold CyberGov.evaluate_proposal
    rw [hd]
    simp only
    rw [if_neg h1, if_neg h2, if_neg h3]
    rcases hviol with hv | hv
    · rw [if_pos hv]
      rfl
    · by_cases hm : state.domain.allowed_capabilities.card -
          min (CyberGov.tentativeDisabled g state p).card
            state.domain.allowed_capabilities.card <
          state.domain.min_capability_count
      · rw [if_pos hm]
        rfl
      · rw [if_neg hm, if_pos hv]
        rfl

/-- C1 witness: the spec's successful-restriction scenario instantiates the
floor bound, and the rejection scenario instantiates the `Err` direction. -/
theorem c1_witness :
    max Scenario.nsC1b.domain.min_capability_count
        Scenario.gC1b.constitution.global_min_capability_floor ≤
      Scenario.nsC1b.domain.allowed_capabilities.card -
        min Scenario.nsC1b.disabled_capabilities.card
          Scenario.nsC1b.domain.allowed_capabilities.card ∧
    resultIsOk (CyberGov.evaluate_proposal Scenario.gC1 Scenario.pC1 Scenario.vC1 10) = false :=
  ⟨c1_floor_monotonicity.1 Scenario.gC1b Scenario.pC1b Scenario.vC1b 0 Scenario.nsC1b
     evalC1bApplied,
   c1_floor_monotonicity.2.1 Scenario.gC1 Scenario.pC1 Scenario.vC1 10 Scenario.stateC1 rfl
     (by decide) (by decide) superC1 (by decide)⟩

/-- C2: Baseline invariance.  With `hard_protect_safety_capabilities = true`,
every DomainState inside an `Applied` result of `evaluate_proposal` has a
disabled set disjoint from the globally nonrestrictable set, for every input
state (including one whose disabled set already intersects that set) and every
proposal (including one restricting nonrestrictable capabilities). -/
theorem c2_baseline_invariance :
    ∀ (g : CyberGov.CapabilityGovernance) (p : CyberGov.GovernanceProposal)
      (v : CyberGov.GovernanceVoteOutcome) (hgt : Nat) (ns : CyberGov.DomainState),
      g.constitution.hard_protect_safety_capabilities = true →
      CyberGov.evaluate_proposal g p v hgt = Except.ok (some ns) →
      ns.disabled_capabilities ∩ g.constitution.globally_nonrestrictable = ∅ := by
  intro g p v hgt ns hhard h
  obtain ⟨state, hd, hns, -, -, -⟩ := evaluateOkSomeInv h
  subst hns
  simp only
  ext x
  simp only [Finset.mem_inter, Finset.mem_filter, Finset.not_mem_empty, iff_false,
    CyberGov.hardProtectFilter, hhard, true_and, not_and]
  tauto

/-- C2 witness: in the concrete applied scenario whose input disabled set
intersects the nonrestrictable set, the returned state is disjoint from it. -/
theorem c2_witness :
    Scenario.nsC2.disabled_capabilities ∩
      Scenario.gC2.constitution.globally_nonrestrictable = ∅ :=
  c2_baseline_invariance Scenario.gC2 Scenario.pC2 Scenario.vC2 0 Scenario.nsC2 rfl
    evalC2Applied

/-- C3 counterexample: an input state satisfying `disabled ⊆ allowed` together
with a proposal restricting the foreign capability `"b"` produces an `Applied`
state whose disabled set is not contained in the allowed set. -/
theorem c3_counterexample :
    CyberGov.evaluate_proposal Scenario.gC3 Scenario.pC3 Scenario.vC3 0 =
      Except.ok (some Scenario.nsC3) ∧
    Scenario.stateC3.disabled_capabilities ⊆ Scenario.stateC3.domain.allowed_capabilities ∧
    ¬ Scenario.nsC3.disabled_capabilities ⊆ Scenario.nsC3.domain.allowed_capabilities :=
  ⟨evalC3Applied, by decide, by decide⟩

/-- C3 (amended): the disabled-subset invariant holds for every `Applied`
result whose input state satisfies the inclusion, provided the proposal's
restrict set is itself contained in the domain's allowed set; the unamended
claim fails because the evaluator never checks membership of restricted
capabilities in `allowed_capabilities`. -/
theorem c3_disabled_subset :
    ∀ (g : CyberGov.CapabilityGovernance) (p : CyberGov.GovernanceProposal)
      (v : CyberGov.GovernanceVoteOutcome) (hgt : Nat)
      (state ns : CyberGov.DomainState),
      CyberGov.lookupDomain g.domains p.domain_id = some state →
      state.disabled_capabilities ⊆ state.domain.allowed_capabilities →
      p.restrict_capabilities ⊆ state.domain.allowed_capabilities →
      CyberGov.evaluate_proposal g p v hgt = Except.ok (some ns) →
      ns.disabled_capabilities ⊆ ns.domain.allowed_capabilities := by
  intro g p v hgt state ns hd hsub hres h
  obtain ⟨state2, hd2, hns, -, -, -⟩ := evaluateOkSomeInv h
  rw [hd] at hd2
  obtain rfl : state = state2 := by injection hd2
  subst hns
  simp only
  intro x hx
  simp only [CyberGov.hardProtectFilter, Finset.mem_filter] at hx
  have hx2 : x ∈ CyberGov.tentativeDisabled g state p := hx.1
  simp only [CyberGov.tentativeDisabled, Finset.mem_union, Finset.mem_sdiff] at hx2
  rcases hx2 with h1 | h1
  · exact hsub h1
  · exact hres h1.1

/-- C3 witness: with the restricted capability inside the allowed set, the
applied result keeps `disabled ⊆ allowed`. -/
theorem c3_witness :
    Scenario.nsC3w.disabled_capabilities ⊆ Scenario.nsC3w.domain.allowed_capabilities :=
  c3_disabled_subset Scenario.gC3w Scenario.pC3w Scenario.vC3w 0 Scenario.stateC3w
    Scenario.nsC3w rfl (by decide) (by decide) evalC3wApplied

/-- Division of rationals by a common non-negative denominator is monotone in
the numerator. -/
theorem ratDivLeDivRight {a b c : ℚ} (h : a ≤ b) (hc : 0 ≤ c) : a / c ≤ b / c := by
  rcases hc.eq_or_lt with hc0 | hcpos
  · rw [← hc0]
    simp
  · exact (div_le_div_iff_of_pos_right hcpos).mpr h

/-- The supermajority gate of the C6 rate-rejection witness scenario passes. -/
theorem superC6z :
    ¬ (CyberGov.yesFraction Scenario.vC6z < Scenario.pC6z.required_supermajority ∨
       CyberGov.yesFraction Scenario.vC6z <
         Scenario.gC6z.constitution.min_supermajority_floor) := by
  have hv : CyberGov.voteTotal Scenario.vC6z = 1 := by decide
  simp only [CyberGov.yesFraction, hv]
  norm_num [Scenario.vC6z, Scenario.pC6z, Scenario.gC6z]

/-- The tentative disabled fraction of the C6 rate-rejection witness scenario
exceeds the cap. -/
theorem rateC6z :
    (((min (CyberGov.tentativeDisabled Scenario.gC6z Scenario.stateC6z Scenario.pC6z).card
        Scenario.stateC6z.domain.allowed_capabilities.card : ℕ) : ℚ) /
        (Scenario.stateC6z.domain.allowed_capabilities.card : ℚ)) >
      Scenario.gC6z.constitution.max_restriction_fraction_per_turn := by
  have hmin : min (CyberGov.tentativeDisabled Scenario.gC6z Scenario.stateC6z
      Scenario.pC6z).card Scenario.stateC6z.domain.allowed_capabilities.card = 2 := by decide
  have hcard : Scenario.stateC6z.domain.allowed_capabilities.card = 4 := by decide
  rw [hmin, hcard]
  norm_num [Scenario.gC6z]

/-- C6 counterexample.  Left: an accepted proposal (cap `1`) whose newly
disabled capabilities number three against a single allowed capability, so the
added restriction fraction `3` exceeds the cap.  Right: a proposal whose
tentative disabled fraction `1/2` exceeds the cap `1/10`, yet the evaluator
rejects it with the domain-floor error, not the rate-limit error. -/
theorem c6_counterexample :
    (CyberGov.evaluate_proposal Scenario.gC6x Scenario.pC6x Scenario.vC6x 0 =
       Except.ok (some Scenario.nsC6x) ∧
     Scenario.gC6x.constitution.max_restriction_fraction_per_turn <
       ((Scenario.nsC6x.disabled_capabilities \
           Scenario.stateC6x.disabled_capabilities).card : ℚ) /
         (Scenario.stateC6x.domain.allowed_capabilities.card : ℚ)) ∧
    (CyberGov.evaluate_proposal Scenario.gC6y Scenario.pC6y Scenario.vC6y 0 =
       Except.error "Proposal would violate domain.min_capability_count; rejected" ∧
     Scenario.gC6y.constitution.max_restriction_fraction_per_turn <
       (((min (CyberGov.tentativeDisabled Scenario.gC6y Scenario.stateC6y
             Scenario.pC6y).card
           Scenario.stateC6y.domain.allowed_capabilities.card : ℕ) : ℚ) /
         (Scenario.stateC6y.domain.allowed_capabilities.card : ℚ))) := by
  refine ⟨⟨evalC6xApplied, ?_⟩, ⟨evalC6yFloorErr, ?_⟩⟩
  · have hc : (Scenario.nsC6x.disabled_capabilities \
        Scenario.stateC6x.disabled_capabilities).card = 3 := by decide
    have ht : Scenario.stateC6x.domain.allowed_capabilities.card = 1 := by decide
    rw [hc, ht]
    norm_num [Scenario.gC6x]
  · have hmin : min (CyberGov.tentativeDisabled Scenario.gC6y Scenario.stateC6y
        Scenario.pC6y).card Scenario.stateC6y.domain.allowed_capabilities.card = 1 := by
      decide
    have ht : Scenario.stateC6y.domain.allowed_capabilities.card = 2 := by decide
    rw [hmin, ht]
    norm_num [Scenario.gC6y]

/-- C6 (amended): Rate bound.  For every accepted proposal, the newly disabled
capabilities that lie in the domain's allowed set, as a fraction of the
allowed cardinality, do not exceed `max_restriction_fraction_per_turn`; and a
proposal that passes the timing, quorum, supermajority and both floor checks
but whose tentative capped disabled fraction exceeds the cap is rejected with
the rate-limit error.  The unamended claim fails for restrict sets containing
capabilities outside the allowed set, and the rate-limit error is preempted by
a floor error when both checks fail. -/
theorem c6_rate_bound :
    (∀ (g : CyberGov.CapabilityGovernance) (p : CyberGov.GovernanceProposal)
       (v : CyberGov.GovernanceVoteOutcome) (hgt : Nat)
       (state ns : CyberGov.DomainState),
       CyberGov.lookupDomain g.domains p.domain_id = some state →
       CyberGov.evaluate_proposal g p v hgt = Except.ok (some ns) →
       (((ns.disabled_capabilities \ state.disabled_capabilities) ∩
           state.domain.allowed_capabilities).card : ℚ) /
           (state.domain.allowed_capabilities.card : ℚ) ≤
         g.constitution.max_restriction_fraction_per_turn) ∧
    (∀ (g : CyberGov.CapabilityGovernance) (p : CyberGov.GovernanceProposal)
       (v : CyberGov.GovernanceVoteOutcome) (hgt : Nat) (state : CyberGov.DomainState),
       CyberGov.lookupDomain g.domains p.domain_id = some state →
       ¬ (hgt < p.activation_height ∨ v.finalized_height < p.activation_height) →
       ¬ (CyberGov.voteTotal v = 0) →
       ¬ (CyberGov.yesFraction v < p.required_supermajority ∨
          CyberGov.yesFraction v < g.constitution.min_supermajority_floor) →
       ¬ (state.domain.allowed_capabilities.card -
            min (CyberGov.tentativeDisabled g state p).card
              state.domain.allowed_capabilities.card <
          state.domain.min_capability_count) →
       ¬ (state.domain.allowed_capabilities.card -
            min (CyberGov.tentativeDisabled g state p).card
              state.domain.allowed_capabilities.card <
          g.constitution.global_min_capability_floor) →
       (((min (CyberGov.tentativeDisabled g state p).card
            state.domain.allowed_capabilities.card : ℕ) : ℚ) /
          (state.domain.allowed_capabilities.card : ℚ)) >
         g.constitution.max_restriction_fraction_per_turn →
       CyberGov.evaluate_proposal g p v hgt =
         Except.error "Proposal over max_restriction_fraction_per_turn; rejected") := by
  constructor
  · intro g p v hgt state ns hd h
    obtain ⟨state2, hd2, hns, -, -, hrate⟩ := evaluateOkSomeInv h
    rw [hd] at hd2
    obtain rfl : state = state2 := by injection hd2
    subst hns
    simp only
    have hsubset : (CyberGov.hardProtectFilter g (CyberGov.tentativeDisabled g state p) \
          state.disabled_capabilities) ∩ state.domain.allowed_capabilities ⊆
        CyberGov.tentativeDisabled g state p := by
      intro x hx
      have hx1 := (Finset.mem_inter.mp hx).1
      have hx2 := (Finset.mem_sdiff.mp hx1).1
      exact Finset.mem_of_mem_filter x hx2
    have hsubset2 : (CyberGov.hardProtectFilter g (CyberGov.tentativeDisabled g state p) \
          state.disabled_capabilities) ∩ state.domain.allowed_capabilities ⊆
        state.domain.allowed_capabilities := Finset.inter_subset_right
    have hle : ((CyberGov.hardProtectFilter g (CyberGov.tentativeDisabled g state p) \
          state.disabled_capabilities) ∩ state.domain.allowed_capabilities).card ≤
        min (CyberGov.tentativeDisabled g state p).card
          state.domain.allowed_capabilities.card :=
      le_min (Finset.card_le_card hsubset) (Finset.card_le_card hsubset2)
    refine le_trans ?_ hrate
    exact ratDivLeDivRight (Nat.cast_le.mpr hle) (Nat.cast_nonneg _)
  · intro g p v hgt state hd h1 h2 h3 h4 h5 h6
    exact evalRateErrOfChecks hd h1 h2 h3 h4 h5 h6

/-- C6 witness: the accepted one-of-two restriction meets the bound, and the
concrete over-cap proposal draws the rate-limit error. -/
theorem c6_witness :
    (((Scenario.nsC6w.disabled_capabilities \ Scenario.stateC6w.disabled_capabilities) ∩
        Scenario.stateC6w.domain.allowed_capabilities).card : ℚ) /
        (Scenario.stateC6w.domain.allowed_capabilities.card : ℚ) ≤
      Scenario.gC6w.constitution.max_restriction_fraction_per_turn ∧
    CyberGov.evaluate_proposal Scenario.gC6z Scenario.pC6z Scenario.vC6z 0 =
      Except.error "Proposal over max_restriction_fraction_per_turn; rejected" :=
  ⟨c6_rate_bound.1 Scenario.gC6w Scenario.pC6w Scenario.vC6w 0 Scenario.stateC6w
     Scenario.nsC6w rfl evalC6wApplied,
   c6_rate_bound.2 Scenario.gC6z Scenario.pC6z Scenario.vC6z 0 Scenario.stateC6z rfl
     (by decide) (by decide) superC6z (by decide) (by decide) rateC6z⟩

/-- C7: No-panic totality.  Under the wrap-around model of `u128` addition
(release-profile overflow semantics), the panic-explicit evaluator — whose one
`usize` subtraction is guarded — never reaches a panic and agrees with the
pure evaluator on every well-typed input, including weight pairs whose true sum
exceeds the `u128` range, empty capability sets and zero weights. -/
theorem c7_no_panic_totality :
    ∀ (g : CyberGov.CapabilityGovernance) (p : CyberGov.GovernanceProposal)
      (v : CyberGov.GovernanceVoteOutcome) (hgt : Nat),
      CyberGov.evaluate_proposalChecked g p v hgt =
        some (CyberGov.evaluate_proposal g p v hgt) := by
  intro g p v hgt
  unfold CyberGov.evaluate_proposalChecked CyberGov.evaluate_proposal
  rcases hd : CyberGov.lookupDomain g.domains p.domain_id with _ | state
  · rfl
  · simp only [CyberGov.checkedSub]
    rw [if_pos (Nat.min_le_right (CyberGov.tentativeDisabled g state p).card
      state.domain.allowed_capabilities.card)]
    simp only
    split_ifs <;> rfl

/-- C9: Protect-set noninterference.  The result of `evaluate_proposal` does
not depend on the proposal's `protect_capabilities` field: replacing it by any
other set leaves the result unchanged, as the evaluation algorithm never reads
the field. -/
theorem c9_protect_noninterference :
    ∀ (g : CyberGov.CapabilityGovernance) (p : CyberGov.GovernanceProposal)
      (v : CyberGov.GovernanceVoteOutcome) (hgt : Nat)
      (s : Finset CyberGov.CapabilityId),
      CyberGov.evaluate_proposal g { p with protect_capabilities := s } v hgt =
        CyberGov.evaluate_proposal g p v hgt :=
  fun _ _ _ _ _ => rfl

/-- C10: The evaluator never commits.  A method call to `evaluate_proposal`
takes the engine by shared reference, so threading any number of evaluator
calls through the engine leaves it — and therefore every `get_domain_state`
lookup — unchanged. -/
theorem c10_evaluator_never_commits :
    ∀ (g : CyberGov.CapabilityGovernance)
      (calls : List (CyberGov.GovernanceProposal × CyberGov.GovernanceVoteOutcome × Nat))
      (domain_id : String),
      CyberGov.evalMany g calls = g ∧
      CyberGov.get_domain_state (CyberGov.evalMany g calls) domain_id =
        CyberGov.get_domain_state g domain_id := by
  intro g calls domain_id
  have h : ∀ (cs : List (CyberGov.GovernanceProposal ×
      CyberGov.GovernanceVoteOutcome × Nat)) (g2 : CyberGov.CapabilityGovernance),
      CyberGov.evalMany g2 cs = g2 := by
    intro cs
    induction cs with
    | nil => intro g2; rfl
    | cons c rest ih => intro g2; exact ih g2
  exact ⟨h calls g, by rw [h calls g]⟩

/-- C4 counterexample: a governance turn for a first-reference agent fails with
the baseline-violation error, yet the call materializes a baseline-seeded
profile for the agent, so the state is not byte-for-byte unchanged. -/
theorem c4_counterexample :
    Element.lookupProfile Scenario.eC4.profiles "bob" = none ∧
    (Element.governance_turn Scenario.eC4 "t1" "bob" {"exit"} ∅).2 =
      Except.error "Cannot restrict baseline capability" ∧
    Element.lookupProfile
        ((Element.governance_turn Scenario.eC4 "t1" "bob" {"exit"} ∅).1).profiles "bob" =
      some Scenario.freshC4 :=
  ⟨rfl, rfl, rfl⟩

/-- C4 (amended): Atomicity on rejection for agents that already have a
profile.  Every `request_enable` or `governance_turn` call that returns `Err`
leaves the element — in particular the agent's enabled and blocked sets —
unchanged, provided the agent's profile already exists; the unamended claim
fails only through the lazy baseline-seeded profile creation performed by
`ensure_profile` on a first-reference agent. -/
theorem c4_atomicity_on_rejection :
    ∀ (e : Element.TheElement) (agent : Element.AgentId)
      (p : Element.AgentCyberProfile) (cap : Element.CapabilityId) (opt : Bool)
      (t : String) (restrict unlock : Finset Element.CapabilityId) (msg : String),
      Element.lookupProfile e.profiles agent = some p →
      ((Element.request_enable e agent cap opt).2 = Except.error msg →
        (Element.request_enable e agent cap opt).1 = e) ∧
      ((Element.governance_turn e t agent restrict unlock).2 = Except.error msg →
        (Element.governance_turn e t agent restrict unlock).1 = e) := by
  intro e agent p cap opt t restrict unlock msg hp
  constructor
  · intro herr
    rcases ha : Element.lookupAbility e.abilities cap with _ | ability
    · simp only [Element.request_enable, ha]
    · simp only [Element.request_enable, ha] at herr ⊢
      rw [ensureOfSome hp] at herr ⊢
      split_ifs at herr ⊢ <;> first | rfl | simp at herr
  · intro herr
    simp only [Element.governance_turn] at herr ⊢
    rw [ensureOfSome hp] at herr ⊢
    split_ifs at herr ⊢ <;> first | rfl | simp at herr

/-- C4 witness: on an agent with an existing profile, a failing enable and a
failing governance turn leave the element unchanged. -/
theorem c4_witness :
    (Element.request_enable Scenario.eC4w "alice" "zz" true).1 = Scenario.eC4w ∧
    (Element.governance_turn Scenario.eC4w "t" "alice" {"exit"} ∅).1 = Scenario.eC4w :=
  ⟨(c4_atomicity_on_rejection Scenario.eC4w "alice" Scenario.pAlice "zz" true "t" {"exit"} ∅
      "Unknown capability" rfl).1 rfl,
   (c4_atomicity_on_rejection Scenario.eC4w "alice" Scenario.pAlice "zz" true "t" {"exit"} ∅
      "Cannot restrict baseline capability" rfl).2 rfl⟩

/-- C5 counterexample: after self-blocking the unregistered capability `"x"`,
a later `request_enable` for it returns the unknown-capability error, not the
self-block error, because the catalog lookup precedes the self-block check. -/
theorem c5_counterexample :
    (Element.request_enable (Element.request_block Scenario.eC5c "al" "x").1
        "al" "x" true).2 = Except.error "Unknown capability" ∧
    ("Unknown capability" : String) ≠ "Agent has explicitly blocked this capability." :=
  ⟨rfl, by decide⟩

/-- C5 (amended): Self-block supremacy.  After `request_block(agent, cap)` the
profile blocks `cap` and does not enable it; this invariant is preserved by
every subsequent `request_enable`, `request_block` and `governance_turn` for
that agent (a governance unlock containing `cap` is silently skipped); a later
`request_enable` for `cap` always returns `Err`, and it returns the self-block
error whenever `cap` is registered in the catalog and its opt-in requirement
is met — for an unregistered `cap` the unknown-capability error fires first,
which is the sole correction to the claim. -/
theorem c5_self_block_supremacy :
    (∀ (e : Element.TheElement) (agent cap : String),
       Element.selfBlockHolds (Element.request_block e agent cap).1 agent cap) ∧
    (∀ (e : Element.TheElement) (agent cap c : String) (opt : Bool),
       Element.selfBlockHolds e agent cap →
       Element.selfBlockHolds (Element.request_enable e agent c opt).1 agent cap) ∧
    (∀ (e : Element.TheElement) (agent cap c : String),
       Element.selfBlockHolds e agent cap →
       Element.selfBlockHolds (Element.request_block e agent c).1 agent cap) ∧
    (∀ (e : Element.TheElement) (agent cap : String) (t : String)
       (restrict unlock : Finset Element.CapabilityId),
       Element.selfBlockHolds e agent cap →
       Element.selfBlockHolds (Element.governance_turn e t agent restrict unlock).1 agent cap) ∧
    (∀ (e : Element.TheElement) (agent cap : String) (opt : Bool),
       Element.selfBlockHolds e agent cap →
       resultIsOk (Element.request_enable e agent cap opt).2 = false) ∧
    (∀ (e : Element.TheElement) (agent cap : String) (opt : Bool)
       (ability : Element.CyberneticAbility),
       Element.selfBlockHolds e agent cap →
       Element.lookupAbility e.abilities cap = some ability →
       (ability.require_explicit_opt_in && !opt) = false →
       (Element.request_enable e agent cap opt).2 =
         Except.error "Agent has explicitly blocked this capability.") := by
  refine ⟨?_, ?_, ?_, ?_, ?_, ?_⟩
  · intro e agent cap
    rcases hl : Element.lookupProfile e.profiles agent with _ | p
    · simp only [Element.request_block, Element.ensure_profile, hl]
      exact ⟨_, lookupSetProfile _ _ _, Finset.mem_insert_self cap _,
        Finset.not_mem_erase cap _⟩
    · simp only [Element.request_block]
      rw [ensureOfSome hl]
      exact ⟨_, lookupSetProfile _ _ _, Finset.mem_insert_self cap _,
        Finset.not_mem_erase cap _⟩
  · intro e agent cap c opt h
    obtain ⟨p, hp, hb, hen⟩ := h
    rcases ha : Element.lookupAbility e.abilities c with _ | ability
    · simp only [Element.request_enable, ha]
      exact ⟨p, hp, hb, hen⟩
    · simp only [Element.request_enable, ha]
      rw [ensureOfSome hp]
      split_ifs with hopt hbc hreq
      · exact ⟨p, hp, hb, hen⟩
      · exact ⟨p, hp, hb, hen⟩
      · exact ⟨p, hp, hb, hen⟩
      · refine ⟨_, lookupSetProfile _ _ _, hb, ?_⟩
        intro hmem
        rcases Finset.mem_insert.mp hmem with heq | hmem2
        · exact hbc (heq ▸ hb)
        · exact hen hmem2
  · intro e agent cap c h
    obtain ⟨p, hp, hb, hen⟩ := h
    simp only [Element.request_block]
    rw [ensureOfSome hp]
    refine ⟨_, lookupSetProfile _ _ _, Finset.mem_insert_of_mem hb, ?_⟩
    intro hmem
    exact hen (Finset.mem_of_mem_erase hmem)
  · intro e agent cap t restrict unlock h
    obtain ⟨p, hp, hb, hen⟩ := h
    simp only [Element.governance_turn]
    rw [ensureOfSome hp]
    split_ifs with hbase hfrac
    · exact ⟨p, hp, hb, hen⟩
    · exact ⟨p, hp, hb, hen⟩
    · refine ⟨_, lookupSetProfile _ _ _, hb, ?_⟩
      intro hmem
      rcases Finset.mem_union.mp hmem with h1 | h1
      · exact hen (Finset.mem_sdiff.mp h1).1
      · exact (Finset.mem_sdiff.mp h1).2 hb
  · intro e agent cap opt h
    obtain ⟨p, hp, hb, hen⟩ := h
    rcases ha : Element.lookupAbility e.abilities cap with _ | ability
    · simp [Element.request_enable, ha, resultIsOk]
    · simp only [Element.request_enable, ha]
      rw [ensureOfSome hp]
      by_cases hopt : (ability.require_explicit_opt_in && !opt) = true
      · rw [if_pos hopt]
        rfl
      · rw [if_neg hopt, if_pos hb]
        rfl
  · intro e agent cap opt ability h hab hopt
    obtain ⟨p, hp, hb, hen⟩ := h
    simp only [Element.request_enable, hab]
    rw [ensureOfSome hp]
    simp only [hopt, Bool.false_eq_true, if_false]
    rw [if_pos hb]

/-- C5 witness: blocking `"x"` establishes the invariant on the stored
profile, and a subsequent enable request for `"x"` fails. -/
theorem c5_witness :
    Element.selfBlockHolds (Element.request_block Scenario.eC5 "al" "x").1 "al" "x" ∧
    resultIsOk (Element.request_enable (Element.request_block Scenario.eC5 "al" "x").1
        "al" "x" true).2 = false :=
  ⟨c5_self_block_supremacy.1 Scenario.eC5 "al" "x",
   c5_self_block_supremacy.2.2.2.2.1 (Element.request_block Scenario.eC5 "al" "x").1
     "al" "x" true (c5_self_block_supremacy.1 Scenario.eC5 "al" "x")⟩

/-- C8 counterexample: a proposal whose description triggers the non-harm veto
(`allowed = false`) still yields `Ok(false)` — an inert result, not an `Err` —
when total support does not exceed total opposition, because the quadratic
consensus check precedes the ethics evaluation. -/
theorem c8_counterexample :
    (Scenario.engC8.saep.evaluate (Steward.govCtx Scenario.pC8)).allowed = false ∧
    Steward.can_apply_proposal Scenario.engC8 Scenario.pC8 Scenario.oC8 =
      Except.ok false :=
  ⟨rfl, rfl⟩

/-- C8 (amended): Ethics veto supremacy over winning votes.  Whenever the
ethics evaluation of the proposal's description yields `allowed = false` and
the outcome has strictly more support than opposition, `can_apply_proposal`
returns `Err`; for outcomes with support not exceeding opposition the call
returns the inert `Ok(false)` without consulting ethics, which is the sole
correction to the claim. -/
theorem c8_ethics_veto :
    ∀ (eng : Steward.GovernanceEngine) (p : Steward.GovernanceProposal)
      (o : Steward.QuadraticOutcome),
      (eng.saep.evaluate (Steward.govCtx p)).allowed = false →
      o.total_opposition < o.total_support →
      resultIsOk (Steward.can_apply_proposal eng p o) = false := by
  intro eng p o hall hv
  simp only [Steward.can_apply_proposal]
  rw [if_neg (not_le.mpr hv), if_pos hall]
  rfl

/-- The C8 witness outcome has strictly more support than opposition. -/
theorem oppLtSupC8w : Scenario.oC8w.total_opposition < Scenario.oC8w.total_support := by
  norm_num [Scenario.oC8w]

/-- C8 witness: with the vetoed description and a winning vote, the call is an
`Err`. -/
theorem c8_witness :
    resultIsOk (Steward.can_apply_proposal Scenario.engC8 Scenario.pC8 Scenario.oC8w) =
      false :=
  c8_ethics_veto Scenario.engC8 Scenario.pC8 Scenario.oC8w rfl oppLtSupC8w
